import Mathlib

/-!
Shallow embedding of the PRICE-TRACKER repository core, checked against its
natural-language specification.

The repository's backend (the price synchronization and alert-evaluation
engine: Scheduler, SyncRunner, Ingestor, AlertEvaluator,
NotificationDispatcher) is Python code that is not part of the source tree
available here; only the frontend (TypeScript/React), the READMEs and the
start scripts are.  Definitions for the backend components therefore carry a
doc comment starting `Modelled from the spec:` and follow the specification
text literally.  Definitions for the frontend (the alert-creation form of
`TourDetailPage` and the axios response interceptor of `lib/api.ts`) are
translated from the TypeScript source.

Prices are modelled as exact rationals (`Rat`); identifiers and timestamps as
naturals.
-/

namespace PriceTracker

/-- Modelled from the spec: the closed set of alert types of §3,
`alert_type ∈ {price_drop, price_increase, percentage_drop, price_change}`
(the backend model class is not in the available sources). -/
inductive AlertType where
  | price_drop
  | price_increase
  | percentage_drop
  | price_change
deriving DecidableEq, Repr

/-- Modelled from the spec: alert `status ∈ {active, paused, triggered}` (§3). -/
inductive AlertStatus where
  | active
  | paused
  | triggered
deriving DecidableEq, Repr

/-- Modelled from the spec: the Alert entity of §3 (identity, owner omitted as
irrelevant to evaluation, `tour_id`, `alert_type`, `threshold_price`,
`threshold_percentage`, `status`, `trigger_count`). -/
structure Alert where
  id : Nat
  tour_id : Nat
  alert_type : AlertType
  threshold_price : Rat
  threshold_percentage : Rat
  status : AlertStatus
  trigger_count : Nat
deriving DecidableEq, Repr

/-- Modelled from the spec: the transient PriceChangeEvent of §3,
`(tour_id, old_price, new_price, recorded_at)`. -/
structure PriceChangeEvent where
  tour_id : Nat
  old_price : Rat
  new_price : Rat
  recorded_at : Nat
deriving DecidableEq, Repr

/-- Modelled from the spec: the firing rule table of §4.5, one rule per
`alert_type`:
`price_drop` fires when `new_price <= threshold_price`;
`price_increase` fires when `new_price >= threshold_price`;
`percentage_drop` fires when `(old_price - new_price) / old_price * 100 >= threshold_percentage`;
`price_change` fires always. -/
def alertFires (a : Alert) (e : PriceChangeEvent) : Bool :=
  match a.alert_type with
  | .price_drop => e.new_price ≤ a.threshold_price
  | .price_increase => e.new_price ≥ a.threshold_price
  | .percentage_drop =>
      (e.old_price - e.new_price) / e.old_price * 100 ≥ a.threshold_percentage
  | .price_change => true

/-- Modelled from the spec: the AlertTriggered record emitted by
AlertEvaluator (§4.5) and consumed by NotificationDispatcher (§4.6); it
carries the alert, the tour, the prices of the change and its timestamp
(the dedup key of §4.6 is derived from `(alert_id, tour_id, recorded_at)`). -/
structure AlertTriggered where
  alert_id : Nat
  tour_id : Nat
  old_price : Rat
  new_price : Rat
  recorded_at : Nat
deriving DecidableEq, Repr

/-- Modelled from the spec: evaluation of a single alert against one
PriceChangeEvent (§4.5).  Paused (and transiently triggered) alerts are
skipped and untouched.  On fire: increment `trigger_count`, set
`status = triggered`, emit an AlertTriggered record, and immediately reset
`status` back to `active`.  Returns the emitted record (if any) and the
updated alert. -/
def evalOne (a : Alert) (e : PriceChangeEvent) : Option AlertTriggered × Alert :=
  if a.status = .active then
    if alertFires a e then
      let fired : Alert :=
        { a with trigger_count := a.trigger_count + 1, status := .triggered }
      let reset : Alert := { fired with status := .active }
      (some ⟨a.id, e.tour_id, e.old_price, e.new_price, e.recorded_at⟩, reset)
    else
      (none, a)
  else
    (none, a)

/-- Modelled from the spec: `evaluate(event) → [AlertTriggered]` (§4.5),
applied to the list of the tour's alerts; each alert is evaluated
independently in order. -/
def evaluate (alerts : List Alert) (e : PriceChangeEvent) :
    List AlertTriggered × List Alert :=
  match alerts with
  | [] => ([], [])
  | a :: rest =>
      ((evalOne a e).1.toList ++ (evaluate rest e).1,
       (evalOne a e).2 :: (evaluate rest e).2)

/-- Modelled from the spec: the append-only PriceRecord of §3,
`(tour_id, price, currency, recorded_at)`. -/
structure PriceRecord where
  tour_id : Nat
  price : Rat
  currency : String
  recorded_at : Nat
deriving DecidableEq, Repr

/-- Modelled from the spec: the summary fields of the Tour entity that the
Ingestor maintains (§3, §6 `LoadTourPriceState`): `current_price`,
`min_price`, `max_price`, `avg_price`.  `LoadTourPriceState` returns either
all of them or NotFound, so the bundle is optional as a whole. -/
structure TourSummary where
  current_price : Rat
  min_price : Rat
  max_price : Rat
  avg_price : Rat
deriving DecidableEq, Repr

/-- Modelled from the spec: the per-tour persisted state the Ingestor reads
and writes — the append-only price history and the optional summary
(`none` before the first successful ingestion). -/
structure TourState where
  records : List PriceRecord
  summary : Option TourSummary
deriving DecidableEq, Repr

/-- Modelled from the spec: the state of a tour that has never been
successfully synced — no PriceRecord yet, no price summary (§4.3). -/
def TourState.empty : TourState := ⟨[], none⟩

/-- Modelled from the spec: the mean of all PriceRecords for a tour,
used to recompute `avg_price` (§4.4). -/
def meanPrice (rs : List PriceRecord) : Rat :=
  (rs.map PriceRecord.price).sum / rs.length

/-- Modelled from the spec: `ingest(tour_id, price, currency, observed_at) →
PriceChangeEvent?` (§4.4).  If no prior price exists: persist the first
PriceRecord, set all four summary fields to this price, no event.  If a prior
price exists and differs: persist a new PriceRecord, update `current_price`,
recompute `min_price`/`max_price` as running extrema and `avg_price` as the
mean of all PriceRecords, and return a PriceChangeEvent carrying old and new
price.  If the price is unchanged: persist a PriceRecord anyway (the stated
policy records one on every successful fetch) and return no event. -/
def ingest (s : TourState) (tour_id : Nat) (price : Rat) (currency : String)
    (observed_at : Nat) : TourState × Option PriceChangeEvent :=
  let r : PriceRecord := ⟨tour_id, price, currency, observed_at⟩
  match s.summary with
  | none =>
      ({ records := s.records ++ [r],
         summary := some ⟨price, price, price, price⟩ }, none)
  | some sum =>
      if price ≠ sum.current_price then
        let records := s.records ++ [r]
        ({ records := records,
           summary := some ⟨price, min sum.min_price price,
                            max sum.max_price price, meanPrice records⟩ },
         some ⟨tour_id, sum.current_price, price, observed_at⟩)
      else
        ({ s with records := s.records ++ [r] }, none)

/-- Modelled from the spec: a sequence of ingestions for one tour, applied in
order (the per-tour view of consecutive sync passes, §4.3/§8).  Each element
is a fetched `(price, currency, observed_at)`. -/
def ingestAll (s : TourState) (tour_id : Nat) : List (Rat × String × Nat) → TourState
  | [] => s
  | x :: xs => ingestAll (ingest s tour_id x.1 x.2.1 x.2.2).1 tour_id xs

/-- Modelled from the spec: a Notification (§3): owner omitted, `tour_id`,
`alert_id`, `old_price`, `new_price`, `price_change`, `price_change_percent`,
`message`, `is_read`, `sent_at`, plus the stable dedup key of §4.6. -/
structure Notification where
  tour_id : Nat
  alert_id : Nat
  old_price : Rat
  new_price : Rat
  price_change : Rat
  price_change_percent : Rat
  message : String
  is_read : Bool
  sent_at : Nat
  dedup_key : Nat × Nat × Nat
deriving DecidableEq, Repr

/-- Modelled from the spec: the stable dedup key of §4.6, derived from
`(alert_id, tour_id, recorded_at)` of the AlertTriggered event. -/
def dedupKey (t : AlertTriggered) : Nat × Nat × Nat :=
  (t.alert_id, t.tour_id, t.recorded_at)

/-- Modelled from the spec: the Notification built for one AlertTriggered
(§4.6): `price_change = new_price - old_price`,
`price_change_percent = price_change / old_price * 100`, `is_read = false`. -/
def mkNotification (t : AlertTriggered) : Notification :=
  { tour_id := t.tour_id
    alert_id := t.alert_id
    old_price := t.old_price
    new_price := t.new_price
    price_change := t.new_price - t.old_price
    price_change_percent := (t.new_price - t.old_price) / t.old_price * 100
    message := ""
    is_read := false
    sent_at := t.recorded_at
    dedup_key := dedupKey t }

/-- Modelled from the spec: `dispatch(triggered) → Notification` (§4.6) over
the store of persisted notifications; creation is idempotent on the dedup
key, so a notification is appended only when no stored notification already
carries the key of this trigger. -/
def dispatch (store : List Notification) (t : AlertTriggered) : List Notification :=
  if store.any (fun n => n.dedup_key = dedupKey t) then store
  else store ++ [mkNotification t]

/-- Modelled from the spec: how many stored notifications carry a given dedup
key. -/
def countKey (store : List Notification) (k : Nat × Nat × Nat) : Nat :=
  (store.filter (fun n => n.dedup_key = k)).length

/-- Modelled from the spec: events driving the Scheduler state machine
(§4.7): a timer tick, an administrative `TriggerSyncNow()`, and the
completion of the running SyncRunner pass. -/
inductive SchedEvent where
  | tick
  | triggerNow
  | complete
deriving DecidableEq, Repr

/-- Modelled from the spec: result of `TriggerSyncNow()`:
`accepted | rejected(already_running)` (§6). -/
inductive TriggerOutcome where
  | accepted
  | rejected_already_running
deriving DecidableEq, Repr

/-- Modelled from the spec: the Scheduler state (§4.7, §9), carrying the
number of SyncRunner passes currently active so that the process-wide
mutual-exclusion invariant (`active ≤ 1`, §5) is a provable property of the
transition system rather than a consequence of the state type.  `active = 0`
is the Idle state, `active = 1` the Running state. -/
structure SchedState where
  active : Nat
deriving DecidableEq, Repr

/-- Modelled from the spec: the Scheduler's initial state: Idle, no pass
active. -/
def SchedState.init : SchedState := ⟨0⟩

/-- Modelled from the spec: one Scheduler transition (§4.7).  A timer tick in
Idle starts a pass; in Running it is dropped (logged as skipped).  A manual
`TriggerSyncNow()` is subject to the same mutual-exclusion rule: accepted in
Idle (starting a pass), rejected with `already_running` otherwise.
Completion of the pass returns to Idle. -/
def schedStep (s : SchedState) (ev : SchedEvent) : SchedState × Option TriggerOutcome :=
  match ev with
  | .tick => if s.active = 0 then (⟨s.active + 1⟩, none) else (s, none)
  | .triggerNow =>
      if s.active = 0 then (⟨s.active + 1⟩, some .accepted)
      else (s, some .rejected_already_running)
  | .complete => (⟨s.active - 1⟩, none)

/-- Modelled from the spec: a run of the Scheduler over a sequence of events
(concurrent timer ticks, manual triggers and pass completions, serialized by
the Scheduler's single point of state transition, §5/§9), collecting the
outcomes handed to `TriggerSyncNow()` callers. -/
def schedRun (s : SchedState) : List SchedEvent → SchedState × List TriggerOutcome
  | [] => (s, [])
  | ev :: rest =>
      let (s1, o) := schedStep s ev
      let (s2, os) := schedRun s1 rest
      (s2, o.toList ++ os)

/-- Modelled from the spec: a tracked tour reference, `TourRef{id, locator}`
(§6 `ListTrackedTours`). -/
structure TourRef where
  id : Nat
  locator : String
deriving DecidableEq, Repr

/-- Modelled from the spec: the outcome of fetching one tour, after the
Fetcher's own bounded retries (§4.2): either a price with its currency, or a
typed permanent error. -/
inductive FetchOutcome where
  | ok (price : Rat) (currency : String)
  | permanentError (msg : String)
deriving DecidableEq, Repr

/-- Modelled from the spec: `SyncReport{succeeded, failed, skipped}` (§4.3),
as the lists of tour ids in each bucket. -/
structure SyncReport where
  succeeded : List Nat
  failed : List Nat
  skipped : List Nat
deriving DecidableEq, Repr

/-- Modelled from the spec: the per-tour persisted state of the whole system,
indexed by tour id. -/
def TourDb : Type := Nat → TourState

/-- Modelled from the spec: pointwise update of the persisted state of one
tour (writes are scoped per tour, §5). -/
def updateDb (db : TourDb) (i : Nat) (s : TourState) : TourDb :=
  fun j => if j = i then s else db j

/-- Modelled from the spec: the per-tour step of a SyncRunner pass (§4.3): a
successful fetch is forwarded to the Ingestor and the tour is recorded as
succeeded; a permanent fetch error is recorded in the report and the pass
continues with persisted state untouched. -/
def runPassAux (fetch : TourRef → FetchOutcome) (now : Nat) :
    List TourRef → TourDb → SyncReport → TourDb × SyncReport
  | [], db, rep => (db, rep)
  | t :: rest, db, rep =>
      match fetch t with
      | .ok p c =>
          runPassAux fetch now rest
            (updateDb db t.id (ingest (db t.id) t.id p c now).1)
            { rep with succeeded := rep.succeeded ++ [t.id] }
      | .permanentError _ =>
          runPassAux fetch now rest db { rep with failed := rep.failed ++ [t.id] }

/-- Modelled from the spec: `run() → SyncReport` (§4.3): one complete pass
over all tracked tours, every tour attempted exactly once, per-tour failures
isolated. -/
def runPass (tours : List TourRef) (fetch : TourRef → FetchOutcome)
    (db : TourDb) (now : Nat) : TourDb × SyncReport :=
  runPassAux fetch now tours db ⟨[], [], []⟩

/-- Numeric value of the decimal digits of a character list, most significant
first (helper for `jsNumber`). -/
def digitsVal (l : List Char) : Nat :=
  l.foldl (fun acc c => acc * 10 + (c.toNat - 48)) 0

/-- JavaScript `Number(s)` on the value of an `<input type="number">` field,
which is either the empty string or a decimal numeral (optional sign, digits,
optional fractional part).  `Number('')` is `0`; a signed decimal numeral
maps to its exact rational value.  Exotic numeric syntax (exponents,
hexadecimal, `NaN`) cannot arise from such a field and is out of scope. -/
def jsNumber (s : String) : Rat :=
  if s = "" then 0
  else
    let (sgn, ds) : Rat × List Char :=
      match s.data with
      | '-' :: r => (-1, r)
      | '+' :: r => (1, r)
      | r => (1, r)
    let intPart := ds.takeWhile (fun c => c ≠ '.')
    let fracPart := (ds.dropWhile (fun c => c ≠ '.')).drop 1
    sgn * ((digitsVal intPart : Rat) +
      (digitsVal fracPart : Rat) / (10 : Rat) ^ fracPart.length)

/-- Request body of `alertsApi.create` (frontend `lib/api.ts`): `tour_id`,
`alert_type`, optional `threshold_price`, optional `threshold_percentage`.
`none` models a field that is `undefined` in the mutation payload and hence
absent from the serialized JSON body. -/
structure CreateAlertBody where
  tour_id : Nat
  alert_type : AlertType
  threshold_price : Option Rat
  threshold_percentage : Option Rat
deriving DecidableEq, Repr

/-- Translation of `handleCreateAlert` in `TourDetailPage`:
`threshold_price: alertType !== 'percentage_drop' ? Number(thresholdPrice) : undefined` and
`threshold_percentage: alertType === 'percentage_drop' ? Number(thresholdPercentage) : undefined`,
where `thresholdPrice` and `thresholdPercentage` are the string states of the
two form inputs. -/
def handleCreateAlert (id : Nat) (alertType : AlertType)
    (thresholdPrice thresholdPercentage : String) : CreateAlertBody :=
  { tour_id := id
    alert_type := alertType
    threshold_price :=
      if alertType ≠ .percentage_drop then some (jsNumber thresholdPrice) else none
    threshold_percentage :=
      if alertType = .percentage_drop then some (jsNumber thresholdPercentage) else none }

/-- Translation of the render condition of the threshold-price input in the
alert-creation modal of `TourDetailPage`:
`alertType !== 'percentage_drop' && alertType !== 'price_change'`. -/
def thresholdPriceInputShown (alertType : AlertType) : Bool :=
  alertType ≠ .percentage_drop ∧ alertType ≠ .price_change

/-- Translation of the browser-visible token storage used by `lib/api.ts`:
the `access_token` and `refresh_token` entries of `localStorage`
(`none` models an absent entry). -/
structure TokenStorage where
  access_token : Option String
  refresh_token : Option String
deriving DecidableEq, Repr

/-- Translation of the browser state the response interceptor of
`lib/api.ts` reads and writes: `localStorage` and `window.location.href`. -/
structure BrowserState where
  storage : TokenStorage
  location : String
deriving DecidableEq, Repr

/-- Translation of the axios request config as used by the interceptor of
`lib/api.ts`: the `Authorization` header and the `_retry` marker the
interceptor sets on a request it has already tried to refresh. -/
structure RequestConfig where
  authHeader : Option String
  _retry : Bool
deriving DecidableEq, Repr

/-- Translation of the axios error observed by the response interceptor:
`error.config` and `error.response?.status` (`none` when there was no
response). -/
structure AxiosError where
  config : RequestConfig
  status : Option Nat
deriving DecidableEq, Repr

/-- Translation of what the response interceptor of `lib/api.ts` returns for
a failed request: either re-issue the original request with an updated
config (`return api(originalRequest)`) or propagate the error
(`return Promise.reject(error)`). -/
inductive InterceptorOutcome where
  | retryRequest (cfg : RequestConfig)
  | rejectError
deriving DecidableEq, Repr

/-- Translation of the response-error interceptor of `lib/api.ts`.
`refreshResult` stands for the outcome of the `POST /auth/refresh` call:
`some (access_token, refresh_token)` for a successful response carrying the
new token pair, `none` for a failed call (the `catch` branch).  Returns the
interceptor outcome, the updated browser state, and whether the refresh
endpoint was called at all.  Faithful paths: a 401 on a request not yet
marked `_retry` marks it, and if a refresh token is stored, calls refresh;
on success both tokens are stored, the Authorization header is set to the
new bearer token, and the original request is re-issued; on failure both
tokens are removed, the browser is redirected to `/login`, and the error is
propagated.  Any other error — including a 401 whose config already carries
`_retry` — is propagated unchanged. -/
def onResponseError (st : BrowserState) (error : AxiosError)
    (refreshResult : Option (String × String)) :
    InterceptorOutcome × BrowserState × Bool :=
  if error.status = some 401 ∧ error.config._retry = false then
    let cfg : RequestConfig := { error.config with _retry := true }
    match st.storage.refresh_token with
    | some _ =>
        match refreshResult with
        | some (access_token, refresh_token) =>
            (.retryRequest { cfg with authHeader := some ("Bearer " ++ access_token) },
             { st with storage := ⟨some access_token, some refresh_token⟩ }, true)
        | none =>
            (.rejectError, { storage := ⟨none, none⟩, location := "/login" }, true)
    | none => (.rejectError, st, false)
  else
    (.rejectError, st, false)

end PriceTracker

namespace PriceTracker

/-- C1: for every active alert and every PriceChangeEvent, a `price_drop`
alert fires exactly when `new_price ≤ threshold_price` and a
`price_increase` alert fires exactly when `new_price ≥ threshold_price`; in
particular a `price_drop` alert with `threshold_price = 100` fires on a
price move 120 → 95 and does not fire on 120 → 110. -/
theorem price_threshold_alerts_fire_iff (a : Alert) (e : PriceChangeEvent)
    (hact : a.status = .active) :
    (a.alert_type = .price_drop →
      ((evalOne a e).1.isSome ↔ e.new_price ≤ a.threshold_price)) ∧
    (a.alert_type = .price_increase →
      ((evalOne a e).1.isSome ↔ e.new_price ≥ a.threshold_price)) ∧
    (evalOne ⟨1, 7, .price_drop, 100, 0, .active, 0⟩ ⟨7, 120, 95, 0⟩).1.isSome = true ∧
    (evalOne ⟨1, 7, .price_drop, 100, 0, .active, 0⟩ ⟨7, 120, 110, 0⟩).1.isSome = false := by
  refine ⟨?_, ?_, by decide, by decide⟩
  · intro hty
    by_cases h : e.new_price ≤ a.threshold_price <;>
      simp [evalOne, hact, alertFires, hty, h]
  · intro hty
    by_cases h : e.new_price ≥ a.threshold_price <;>
      simp [evalOne, hact, alertFires, hty, h]

/-- Witness for C1 at a concrete active `price_drop` alert with threshold 100
and the price move 120 → 95. -/
theorem price_threshold_alerts_fire_iff_witness :
    (evalOne ⟨1, 7, .price_drop, 100, 0, .active, 0⟩ ⟨7, 120, 95, 0⟩).1.isSome = true :=
  (price_threshold_alerts_fire_iff ⟨1, 7, .price_drop, 100, 0, .active, 0⟩
    ⟨7, 120, 95, 0⟩ rfl).2.2.1

/-- C3: for every active `percentage_drop` alert and every PriceChangeEvent,
the alert fires exactly when
`(old_price - new_price) / old_price * 100 ≥ threshold_percentage`; in
particular with `threshold_percentage = 10` it fires on 100 → 89 (an 11%
drop) and does not fire on 100 → 92 (an 8% drop). -/
theorem percentage_drop_alert_fires_iff (a : Alert) (e : PriceChangeEvent)
    (hact : a.status = .active) (hty : a.alert_type = .percentage_drop) :
    ((evalOne a e).1.isSome ↔
      (e.old_price - e.new_price) / e.old_price * 100 ≥ a.threshold_percentage) ∧
    (evalOne ⟨1, 7, .percentage_drop, 0, 10, .active, 0⟩ ⟨7, 100, 89, 0⟩).1.isSome = true ∧
    (evalOne ⟨1, 7, .percentage_drop, 0, 10, .active, 0⟩ ⟨7, 100, 92, 0⟩).1.isSome = false := by
  refine ⟨?_, by norm_num [evalOne, alertFires], by norm_num [evalOne, alertFires]⟩
  by_cases h : (e.old_price - e.new_price) / e.old_price * 100 ≥ a.threshold_percentage <;>
    simp [evalOne, hact, alertFires, hty, h]

/-- Witness for C3 at a concrete active `percentage_drop` alert with
threshold 10% and the price move 100 → 89. -/
theorem percentage_drop_alert_fires_iff_witness :
    (evalOne ⟨1, 7, .percentage_drop, 0, 10, .active, 0⟩ ⟨7, 100, 89, 0⟩).1.isSome = true :=
  (percentage_drop_alert_fires_iff ⟨1, 7, .percentage_drop, 0, 10, .active, 0⟩
    ⟨7, 100, 89, 0⟩ rfl rfl).2.1

/-- C2: a call to `ingest` returns a PriceChangeEvent exactly when a prior
price exists for the tour and the new price differs from it (no event on the
very first ingestion, none on an unchanged price), while a PriceRecord is
appended on every successful ingestion regardless of whether the price
changed. -/
theorem ingest_event_iff_price_changed (s : TourState) (tid : Nat) (p : Rat)
    (c : String) (t : Nat) :
    ((ingest s tid p c t).2.isSome ↔
      ∃ sum, s.summary = some sum ∧ p ≠ sum.current_price) ∧
    (ingest s tid p c t).1.records.length = s.records.length + 1 := by
  cases hs : s.summary with
  | none => simp [ingest, hs]
  | some sum =>
      by_cases hp : p = sum.current_price <;> simp [ingest, hs, hp]

/-- Components of `evaluate`: the emitted AlertTriggered records are exactly
the per-alert emissions of `evalOne`, in order, and the updated alert list is
the pointwise `evalOne` update. -/
theorem evaluate_components (alerts : List Alert) (e : PriceChangeEvent) :
    (evaluate alerts e).1 = alerts.filterMap (fun b => (evalOne b e).1) ∧
    (evaluate alerts e).2 = alerts.map (fun b => (evalOne b e).2) := by
  induction alerts with
  | nil => simp [evaluate]
  | cons a rest ih =>
      cases h : (evalOne a e).1 <;>
        simp [evaluate, h, ih.1, ih.2, List.filterMap_cons]

/-- C4: for every alert that fires during evaluation, the evaluation
increments the alert's `trigger_count` by exactly one, emits exactly one
AlertTriggered record, and leaves the alert's status equal to `active` when
evaluation completes (the transient `triggered` status is immediately reset
to `active` so the alert can fire again on the next qualifying event);
within `evaluate`, each alert contributes exactly its own `evalOne` emission
and update. -/
theorem alert_fire_bookkeeping (a : Alert) (e : PriceChangeEvent)
    (hact : a.status = .active) (hfire : alertFires a e = true) :
    evalOne a e =
      (some ⟨a.id, e.tour_id, e.old_price, e.new_price, e.recorded_at⟩,
       { a with trigger_count := a.trigger_count + 1, status := .active }) ∧
    (evalOne a e).2.status = .active ∧
    ∀ alerts : List Alert,
      (evaluate alerts e).1 = alerts.filterMap (fun b => (evalOne b e).1) := by
  refine ⟨?_, ?_, fun alerts => (evaluate_components alerts e).1⟩ <;>
    simp [evalOne, hact, hfire]

/-- Witness for C4 at a concrete active `price_drop` alert fired by the price
move 120 → 95. -/
theorem alert_fire_bookkeeping_witness :
    evalOne ⟨1, 7, .price_drop, 100, 0, .active, 4⟩ ⟨7, 120, 95, 9⟩ =
      (some ⟨1, 7, 120, 95, 9⟩, ⟨1, 7, .price_drop, 100, 0, .active, 5⟩) :=
  (alert_fire_bookkeeping ⟨1, 7, .price_drop, 100, 0, .active, 4⟩
    ⟨7, 120, 95, 9⟩ rfl (by decide)).1

/-- Summary invariant of a tour state: whenever a summary is present,
`min_price ≤ current_price ≤ max_price`. -/
def summaryInv (s : TourState) : Prop :=
  ∀ sum, s.summary = some sum →
    sum.min_price ≤ sum.current_price ∧ sum.current_price ≤ sum.max_price

/-- Every ingestion leaves a summary whose `current_price` is the ingested
price, bracketed by `min_price` and `max_price` whenever the incoming state
satisfied the summary invariant. -/
theorem ingest_summary_spec (s : TourState) (tid : Nat) (p : Rat) (c : String)
    (t : Nat) :
    ∃ sum, (ingest s tid p c t).1.summary = some sum ∧ sum.current_price = p ∧
      (summaryInv s → sum.min_price ≤ p ∧ p ≤ sum.max_price) := by
  cases hs : s.summary with
  | none =>
      exact ⟨⟨p, p, p, p⟩, by simp [ingest, hs], rfl, fun _ => ⟨le_refl p, le_refl p⟩⟩
  | some sum =>
      by_cases hp : p = sum.current_price
      · refine ⟨sum, by simp [ingest, hs, hp], hp.symm, fun hinv => ?_⟩
        have hb := hinv sum hs
        exact ⟨hp ▸ hb.1, hp ▸ hb.2⟩
      · refine ⟨⟨p, min sum.min_price p, max sum.max_price p,
          meanPrice (s.records ++ [⟨tid, p, c, t⟩])⟩, by simp [ingest, hs, hp], rfl,
          fun _ => ⟨min_le_right _ _, le_max_right _ _⟩⟩

/-- Ingestion preserves the summary invariant. -/
theorem ingest_preserves_summaryInv (s : TourState) (tid : Nat) (p : Rat)
    (c : String) (t : Nat) (h : summaryInv s) :
    summaryInv (ingest s tid p c t).1 := by
  obtain ⟨sum, hsum, hcur, hbounds⟩ := ingest_summary_spec s tid p c t
  intro sum2 h2
  rw [hsum] at h2
  cases h2
  exact ⟨hcur ▸ (hbounds h).1, hcur ▸ (hbounds h).2⟩

/-- Any sequence of ingestions preserves the summary invariant. -/
theorem ingestAll_preserves_summaryInv (tid : Nat) (xs : List (Rat × String × Nat)) :
    ∀ s : TourState, summaryInv s → summaryInv (ingestAll s tid xs) := by
  induction xs with
  | nil => intro s h; exact h
  | cons x rest ih =>
      intro s h
      exact ih _ (ingest_preserves_summaryInv s tid x.1 x.2.1 x.2.2 h)

/-- Appending one more fetch to a sequence of ingestions ingests it last. -/
theorem ingestAll_append_last (tid : Nat) (xs : List (Rat × String × Nat))
    (x : Rat × String × Nat) :
    ∀ s : TourState, ingestAll s tid (xs ++ [x]) =
      (ingest (ingestAll s tid xs) tid x.1 x.2.1 x.2.2).1 := by
  induction xs with
  | nil => intro s; rfl
  | cons y rest ih => intro s; exact ih _

/-- C5: for every tour with at least one PriceRecord — that is, after every
ingestion sequence ending in an actual ingestion, starting from the empty
state — the invariant `min_price ≤ current_price ≤ max_price` holds, and
`current_price` equals the most recently ingested price for that tour. -/
theorem ingestion_summary_invariant (tid : Nat) (xs : List (Rat × String × Nat))
    (p : Rat) (c : String) (t : Nat) :
    ∃ sum, (ingestAll TourState.empty tid (xs ++ [(p, c, t)])).summary = some sum ∧
      sum.current_price = p ∧
      sum.min_price ≤ sum.current_price ∧ sum.current_price ≤ sum.max_price := by
  have hinv : summaryInv (ingestAll TourState.empty tid xs) :=
    ingestAll_preserves_summaryInv tid xs TourState.empty
      (by intro sum h; simp [TourState.empty] at h)
  obtain ⟨sum, hsum, hcur, hbounds⟩ :=
    ingest_summary_spec (ingestAll TourState.empty tid xs) tid p c t
  refine ⟨sum, ?_, hcur, hcur ▸ (hbounds hinv).1, hcur ▸ (hbounds hinv).2⟩
  rw [ingestAll_append_last]
  exact hsum

/-- Dispatching a trigger whose dedup key is already stored is a no-op. -/
theorem dispatch_of_present (store : List Notification) (t : AlertTriggered)
    (h : store.any (fun m => m.dedup_key = dedupKey t) = true) :
    dispatch store t = store := by
  simp [dispatch, h]

/-- After dispatching a trigger, its dedup key is stored. -/
theorem dispatch_any_key (store : List Notification) (t : AlertTriggered) :
    (dispatch store t).any (fun m => m.dedup_key = dedupKey t) = true := by
  by_cases h : store.any (fun m => m.dedup_key = dedupKey t)
  · simp [dispatch, h]
  · simp [dispatch, h, mkNotification]

/-- One dispatch brings the number of stored notifications with the trigger's
dedup key to one if it was zero, and leaves it unchanged otherwise. -/
theorem countKey_dispatch_eq (store : List Notification) (t : AlertTriggered) :
    countKey (dispatch store t) (dedupKey t) =
      if countKey store (dedupKey t) = 0 then 1
      else countKey store (dedupKey t) := by
  by_cases h : store.any (fun m => m.dedup_key = dedupKey t)
  · have hne : countKey store (dedupKey t) ≠ 0 := by
      obtain ⟨x, hx, hp⟩ := List.any_eq_true.mp h
      have hmem : x ∈ store.filter (fun m => m.dedup_key = dedupKey t) :=
        List.mem_filter.mpr ⟨hx, hp⟩
      have hpos : 0 < countKey store (dedupKey t) :=
        List.length_pos.mpr (List.ne_nil_of_mem hmem)
      omega
    simp [dispatch_of_present store t h, hne]
  · have hall := List.any_eq_false.mp (Bool.of_not_eq_true h)
    have hnil : store.filter (fun m => m.dedup_key = dedupKey t) = [] :=
      List.filter_eq_nil_iff.mpr (by intro a ha; simpa using hall a ha)
    have h0 : countKey store (dedupKey t) = 0 := by simp [countKey, hnil]
    rw [if_pos h0]
    simp [dispatch, h, countKey, List.filter_append, hnil, mkNotification]

/-- Replaying a trigger any positive number of times yields the same stored
count as dispatching it once. -/
theorem countKey_iterate_dispatch (t : AlertTriggered) :
    ∀ (n : Nat) (store : List Notification),
      countKey ((fun s => dispatch s t)^[n + 1] store) (dedupKey t) =
        if countKey store (dedupKey t) = 0 then 1
        else countKey store (dedupKey t) := by
  intro n
  induction n with
  | zero => intro store; simpa using countKey_dispatch_eq store t
  | succ m ih =>
      intro store
      rw [Function.iterate_succ_apply]
      rw [ih (dispatch store t), countKey_dispatch_eq store t]
      split_ifs <;> omega

/-- C6: `dispatch` is idempotent per logical trigger: replaying the same
AlertTriggered any number of times creates exactly one Notification,
deduplicated on the key derived from `(alert_id, tour_id, recorded_at)` —
a second dispatch of the same trigger is a no-op, and after `n + 1`
dispatches the store holds exactly one notification with the trigger's dedup
key when it held none before (and its prior count otherwise). -/
theorem dispatch_idempotent_per_trigger (store : List Notification)
    (t : AlertTriggered) (n : Nat) :
    dispatch (dispatch store t) t = dispatch store t ∧
    countKey ((fun s => dispatch s t)^[n + 1] store) (dedupKey t) =
      if countKey store (dedupKey t) = 0 then 1
      else countKey store (dedupKey t) :=
  ⟨dispatch_of_present _ t (dispatch_any_key store t),
   countKey_iterate_dispatch t n store⟩

/-- One Scheduler transition keeps the number of active passes at most one. -/
theorem schedStep_active_le (s : SchedState) (ev : SchedEvent)
    (h : s.active ≤ 1) : (schedStep s ev).1.active ≤ 1 := by
  cases ev with
  | tick =>
      by_cases h0 : s.active = 0
      · simp [schedStep, h0]
      · simp only [schedStep, h0, if_neg, ite_false]
        omega
  | triggerNow =>
      by_cases h0 : s.active = 0
      · simp [schedStep, h0]
      · simp only [schedStep, h0, if_neg, ite_false]
        omega
  | complete => simp only [schedStep]; omega

/-- A run of the Scheduler from any state with at most one active pass keeps
at most one active pass. -/
theorem schedRun_active_le (evs : List SchedEvent) :
    ∀ s : SchedState, s.active ≤ 1 → (schedRun s evs).1.active ≤ 1 := by
  induction evs with
  | nil => intro s h; exact h
  | cons ev rest ih =>
      intro s h
      exact ih _ (schedStep_active_le s ev h)

/-- C7 counterexample: at the concrete reachable state in which a pass is
running (reached from the initial state by one timer tick), two
`TriggerSyncNow()` calls are both rejected with `already_running` — zero are
accepted, refuting the claim that exactly one of two concurrent calls issued
while a pass is running is accepted. -/
theorem scheduler_two_triggers_while_running_counterexample :
    (schedRun SchedState.init [.tick]).1.active ≠ 0 ∧
    (schedRun SchedState.init [.tick, .triggerNow, .triggerNow]).2 =
      [.rejected_already_running, .rejected_already_running] ∧
    ¬((schedRun SchedState.init [.tick, .triggerNow, .triggerNow]).2.count
        .accepted = 1) := by
  decide

/-- C7 amended: at most one SyncRunner pass is active in every state the
Scheduler reaches from its initial state, even when an administrative manual
trigger races the timer; of two concurrent `TriggerSyncNow()` calls issued
while no pass is running, exactly one is accepted and the other is rejected
with `already_running`; while a pass is running, both are rejected with
`already_running`. -/
theorem scheduler_mutual_exclusion :
    (∀ evs : List SchedEvent, (schedRun SchedState.init evs).1.active ≤ 1) ∧
    (∀ s : SchedState, s.active = 0 →
      (schedRun s [.triggerNow, .triggerNow]).2 =
        [.accepted, .rejected_already_running]) ∧
    (∀ s : SchedState, s.active ≠ 0 →
      (schedRun s [.triggerNow, .triggerNow]).2 =
        [.rejected_already_running, .rejected_already_running]) := by
  refine ⟨fun evs => schedRun_active_le evs SchedState.init (by simp [SchedState.init]),
    fun s h => ?_, fun s h => ?_⟩
  · simp [schedRun, schedStep, h]
  · simp [schedRun, schedStep, h]

/-- Witness for C7's amended claim: the invariant along a concrete event
trace, and the two trigger races at the concrete Idle and Running states. -/
theorem scheduler_mutual_exclusion_witness :
    (schedRun SchedState.init [.tick, .triggerNow, .complete, .triggerNow]).1.active ≤ 1 ∧
    (schedRun ⟨0⟩ [.triggerNow, .triggerNow]).2 =
      [.accepted, .rejected_already_running] ∧
    (schedRun ⟨1⟩ [.triggerNow, .triggerNow]).2 =
      [.rejected_already_running, .rejected_already_running] :=
  ⟨scheduler_mutual_exclusion.1 [.tick, .triggerNow, .complete, .triggerNow],
   scheduler_mutual_exclusion.2.1 ⟨0⟩ rfl,
   scheduler_mutual_exclusion.2.2 ⟨1⟩ (by decide)⟩

/-- Modelled from the spec: whether a fetch outcome is a success. -/
def isOkFetch : FetchOutcome → Bool
  | .ok _ _ => true
  | .permanentError _ => false

/-- Modelled from the spec: the effect of one tour's fetch outcome on that
tour's own persisted state: a successful fetch is ingested, a permanent
error leaves the state untouched (§4.3, §7). -/
def applyFetch (fetch : TourRef → FetchOutcome) (now : Nat) (s : TourState)
    (t : TourRef) : TourState :=
  match fetch t with
  | .ok p c => (ingest s t.id p c now).1
  | .permanentError _ => s

/-- A pass leaves the state of every tour id it does not visit untouched. -/
theorem runPassAux_db_untouched (fetch : TourRef → FetchOutcome) (now : Nat) :
    ∀ (tours : List TourRef) (db : TourDb) (rep : SyncReport) (j : Nat),
      j ∉ tours.map TourRef.id →
      (runPassAux fetch now tours db rep).1 j = db j := by
  intro tours
  induction tours with
  | nil => intro db rep j _; rfl
  | cons t rest ih =>
      intro db rep j hj
      simp only [List.map_cons, List.mem_cons] at hj
      push_neg at hj
      cases hf : fetch t with
      | ok p c =>
          simp only [runPassAux, hf]
          rw [ih _ _ j hj.2]
          simp [updateDb, hj.1]
      | permanentError m =>
          simp only [runPassAux, hf]
          exact ih _ _ j hj.2

/-- In a pass over tours with pairwise distinct ids, each tour's final state
is exactly its own fetch outcome applied to its own prior state. -/
theorem runPassAux_db_at (fetch : TourRef → FetchOutcome) (now : Nat) :
    ∀ (tours : List TourRef) (db : TourDb) (rep : SyncReport) (B : TourRef),
      B ∈ tours → (tours.map TourRef.id).Nodup →
      (runPassAux fetch now tours db rep).1 B.id =
        applyFetch fetch now (db B.id) B := by
  intro tours
  induction tours with
  | nil => intro db rep B hB _; cases hB
  | cons t rest ih =>
      intro db rep B hB hnd
      simp only [List.map_cons, List.nodup_cons] at hnd
      rcases List.mem_cons.mp hB with hBt | hBr
      · subst hBt
        cases hf : fetch B with
        | ok p c =>
            simp only [runPassAux, hf]
            rw [runPassAux_db_untouched fetch now rest _ _ B.id hnd.1]
            simp [updateDb, applyFetch, hf]
        | permanentError m =>
            simp only [runPassAux, hf]
            rw [runPassAux_db_untouched fetch now rest _ _ B.id hnd.1]
            simp [applyFetch, hf]
      · have hne : t.id ≠ B.id := by
          intro he
          exact hnd.1 (he ▸ List.mem_map_of_mem TourRef.id hBr)
        cases hf : fetch t with
        | ok p c =>
            have hne' : B.id ≠ t.id := Ne.symm hne
            simp only [runPassAux, hf]
            rw [ih _ _ B hBr hnd.2]
            simp [updateDb, hne']
        | permanentError m =>
            simp only [runPassAux, hf]
            exact ih _ _ B hBr hnd.2

/-- The report of a pass extends the incoming report with the ids of the
successfully fetched tours and of the permanently failing tours, in pass
order. -/
theorem runPassAux_report (fetch : TourRef → FetchOutcome) (now : Nat) :
    ∀ (tours : List TourRef) (db : TourDb) (rep : SyncReport),
      (runPassAux fetch now tours db rep).2.succeeded =
        rep.succeeded ++ (tours.filter (fun t => isOkFetch (fetch t))).map TourRef.id ∧
      (runPassAux fetch now tours db rep).2.failed =
        rep.failed ++ (tours.filter (fun t => !isOkFetch (fetch t))).map TourRef.id := by
  intro tours
  induction tours with
  | nil => intro db rep; simp [runPassAux]
  | cons t rest ih =>
      intro db rep
      cases hf : fetch t with
      | ok p c =>
          simp only [runPassAux, hf]
          rw [(ih _ _).1, (ih _ _).2]
          simp [List.filter_cons, isOkFetch, hf]
      | permanentError m =>
          simp only [runPassAux, hf]
          rw [(ih _ _).1, (ih _ _).2]
          simp [List.filter_cons, isOkFetch, hf]

/-- A Boolean filter and its complement partition a list's length. -/
theorem length_filter_partition {α : Type} (p : α → Bool) (l : List α) :
    (l.filter p).length + (l.filter (fun a => !p a)).length = l.length := by
  induction l with
  | nil => rfl
  | cons a rest ih =>
      cases h : p a <;> simp [List.filter_cons, h] <;> omega

/-- C8: for every sync pass over tours with pairwise distinct ids and every
tour `A` whose fetch fails permanently, the failure is recorded in the
SyncReport, the pass attempts every tour exactly once (the succeeded and
failed buckets together cover the whole pass), and every other tour whose
fetch succeeds is ingested exactly as its own fetch dictates — `A`'s failure
neither aborts the pass nor changes any other tour's ingestion outcome. -/
theorem sync_pass_failure_isolated (tours : List TourRef)
    (fetch : TourRef → FetchOutcome) (db : TourDb) (now : Nat) (A : TourRef)
    (msg : String) (hmem : A ∈ tours) (hnd : (tours.map TourRef.id).Nodup)
    (hfail : fetch A = .permanentError msg) :
    A.id ∈ (runPass tours fetch db now).2.failed ∧
    (runPass tours fetch db now).2.succeeded.length +
      (runPass tours fetch db now).2.failed.length = tours.length ∧
    ∀ B ∈ tours, ∀ (p : Rat) (c : String), fetch B = .ok p c →
      (runPass tours fetch db now).1 B.id = (ingest (db B.id) B.id p c now).1 := by
  obtain ⟨hsucc, hfailed⟩ := runPassAux_report fetch now tours db ⟨[], [], []⟩
  refine ⟨?_, ?_, ?_⟩
  · rw [runPass, hfailed]
    simp only [List.nil_append]
    exact List.mem_map_of_mem TourRef.id
      (List.mem_filter.mpr ⟨hmem, by simp [isOkFetch, hfail]⟩)
  · rw [runPass, hsucc, hfailed]
    simp only [List.nil_append, List.length_map]
    exact length_filter_partition (fun t => isOkFetch (fetch t)) tours
  · intro B hB p c hfB
    rw [runPass, runPassAux_db_at fetch now tours db ⟨[], [], []⟩ B hB hnd]
    simp [applyFetch, hfB]

/-- Concrete three-tour pass used to witness C8. -/
def exampleTours : List TourRef := [⟨1, "t1"⟩, ⟨2, "t2"⟩, ⟨3, "t3"⟩]

/-- Concrete fetch used to witness C8: tour 1 fails permanently, every other
tour fetches 50 EUR. -/
def exampleFetch : TourRef → FetchOutcome :=
  fun t => if t.id = 1 then .permanentError "not found" else .ok 50 "EUR"

/-- Concrete empty database used to witness C8. -/
def exampleDb : TourDb := fun _ => TourState.empty

/-- Witness for C8: in the concrete three-tour pass whose first tour fails
permanently, the failure is in the report and all three tours were
attempted. -/
theorem sync_pass_failure_isolated_witness :
    (1 : Nat) ∈ (runPass exampleTours exampleFetch exampleDb 0).2.failed ∧
    (runPass exampleTours exampleFetch exampleDb 0).2.succeeded.length +
      (runPass exampleTours exampleFetch exampleDb 0).2.failed.length = 3 := by
  have h := sync_pass_failure_isolated exampleTours exampleFetch exampleDb 0
    ⟨1, "t1"⟩ "not found" (by decide) (by decide) rfl
  exact ⟨h.1, h.2.1⟩

/-- C9: in the tour-detail alert-creation form, the request body of
`handleCreateAlert` includes `threshold_price` exactly when the alert type
is not `percentage_drop`, and includes `threshold_percentage` exactly when
the alert type is `percentage_drop`; in particular for
`alert_type = price_change` — whose threshold input is never rendered, so
the field keeps its initial empty-string value — the body carries
`threshold_price = 0` (the value of `Number('')`), not an absent field. -/
theorem create_alert_body_threshold_fields (id : Nat) (alertType : AlertType)
    (thresholdPrice thresholdPercentage : String) :
    ((handleCreateAlert id alertType thresholdPrice thresholdPercentage).threshold_price
        ≠ none ↔ alertType ≠ .percentage_drop) ∧
    ((handleCreateAlert id alertType thresholdPrice thresholdPercentage).threshold_percentage
        ≠ none ↔ alertType = .percentage_drop) ∧
    thresholdPriceInputShown .price_change = false ∧
    (handleCreateAlert id .price_change "" thresholdPercentage).threshold_price
      = some 0 := by
  refine ⟨?_, ?_, by decide, by simp [handleCreateAlert, jsNumber]⟩ <;>
    by_cases h : alertType = .percentage_drop <;>
      simp [handleCreateAlert, h]

/-- C10: the axios response interceptor attempts the token refresh at most
once per original request — a request whose config already carries the
`_retry` flag is never refreshed again, and the re-issued request's config
always carries `_retry = true` — and when the refresh call itself fails,
both `access_token` and `refresh_token` are removed from localStorage and
the browser is redirected to `/login`. -/
theorem interceptor_refresh_once_and_logout (st : BrowserState)
    (error : AxiosError) (refreshResult : Option (String × String)) :
    (error.config._retry = true →
      onResponseError st error refreshResult = (.rejectError, st, false)) ∧
    (∀ cfg : RequestConfig,
      (onResponseError st error refreshResult).1 = .retryRequest cfg →
        cfg._retry = true) ∧
    (error.status = some 401 → error.config._retry = false →
      st.storage.refresh_token ≠ none → refreshResult = none →
      onResponseError st error refreshResult =
        (.rejectError, ⟨⟨none, none⟩, "/login"⟩, true)) := by
  refine ⟨?_, ?_, ?_⟩
  · intro h
    simp [onResponseError, h]
  · intro cfg h
    by_cases hc : error.status = some 401 ∧ error.config._retry = false
    · obtain ⟨h1, h2⟩ := hc
      cases hrt : st.storage.refresh_token with
      | none => simp [onResponseError, h1, h2, hrt] at h
      | some rt =>
          cases hrr : refreshResult with
          | none => simp [onResponseError, h1, h2, hrt, hrr] at h
          | some pair =>
              simp [onResponseError, h1, h2, hrt, hrr] at h
              rw [← h]
    · simp [onResponseError, hc] at h
  · intro h1 h2 h3 h4
    cases hrt : st.storage.refresh_token with
    | none => exact absurd hrt h3
    | some rt => simp [onResponseError, h1, h2, hrt, h4]

/-- Witness for C10: at a concrete browser state holding both tokens and a
concrete 401 error on a never-retried request whose refresh call fails, the
interceptor clears both tokens, redirects to `/login`, and propagates the
error after having attempted exactly one refresh. -/
theorem interceptor_refresh_once_and_logout_witness :
    onResponseError ⟨⟨some "a", some "r"⟩, "/tours"⟩ ⟨⟨none, false⟩, some 401⟩ none =
      (.rejectError, ⟨⟨none, none⟩, "/login"⟩, true) :=
  (interceptor_refresh_once_and_logout ⟨⟨some "a", some "r"⟩, "/tours"⟩
    ⟨⟨none, false⟩, some 401⟩ none).2.2 rfl rfl (by simp) rfl

end PriceTracker
